import Mathlib

/-!
Verification of the authorization-decision layer of the AI Project Manager
demo application (server endpoints in `server.js` and its deployed variant,
plus the browser-side permission cache in the SPA client script).

The embedding translates the request handlers into pure Lean functions.
Outcomes of calls to the external FGA service are passed in explicitly
(`RemoteOutcome`); the calls a handler issues are recorded in an explicit
effect trace, and the branch of the handler that produced a decision
(remote service vs. the hard-coded mock table) is recorded as the decision's
source tag, since the JSON body itself carries no such field.
-/

namespace AIPM

/-- Status of an approval request (`status` field in the handler's record). -/
inductive ApprovalStatus
  | pending
  | approved
  | denied
  | expired
deriving DecidableEq, Repr

/-- Which code path of the check handler produced a decision: the hard-coded
mock table (the degraded/fallback branch taken when no FGA client is
configured) or a successful call to the remote FGA service.  `cache` never
occurs in the server code; it is included because the specification's
Decision vocabulary names it. -/
inductive Source
  | cache
  | remote
  | fallback
deriving DecidableEq, Repr

/-- Outcome of one call to the remote FGA service's `check`:
either a well-formed response carrying `allowed`, or a thrown error
(transport/timeout failure, or a service-side error).  Both kinds of thrown
error land in the same `catch` block of the handlers. -/
inductive RemoteOutcome
  | ok (allowed : Bool)
  | unavailable
  | remoteError
deriving DecidableEq, Repr

/-- External calls a handler issues, in order. -/
inductive Effect
  | remoteCheck (user relation object : String)
  | remoteWrite (user relation object : String)
  | fallbackLookup (key : String)
  | managementGetUser (id : String)
  | tokenVaultExchange (userId service : String)
deriving DecidableEq, Repr

/-- The JSON body (plus HTTP status) a handler sends back. -/
inductive Response
  | decision (allowed : Bool) (resource relation : String) (source : Source)
  | grantOk (message : String)
  | approvalPending (requestId : String) (status : ApprovalStatus) (message : String)
  | profileOk (userId : String)
  | tokenOk (accessToken : String) (expiresIn : Nat)
  | error (status : Nat) (message : String)
deriving DecidableEq, Repr

/-- Answers `true` iff the response is a decision produced by the mock-table
branch. -/
def Response.isFallbackDecision : Response → Bool
  | .decision _ _ _ .fallback => true
  | _ => false

/-- Answers `true` iff the response is a decision served from a cache.  The
server handlers never produce one; the constructor exists only because the
specification names the source. -/
def Response.isCacheDecision : Response → Bool
  | .decision _ _ _ .cache => true
  | _ => false

/-- Answers `true` iff the response is a decision (as opposed to an error or
another success body). -/
def Response.isDecision : Response → Bool
  | .decision _ _ _ _ => true
  | _ => false

/-- Answers `true` iff the effect is a relationship-tuple write to the
remote service. -/
def Effect.isRemoteWrite : Effect → Bool
  | .remoteWrite _ _ _ => true
  | _ => false

/-- Answers `true` iff the effect is a lookup in the mock fallback table. -/
def Effect.isFallbackLookup : Effect → Bool
  | .fallbackLookup _ => true
  | _ => false

/-- The key string `resource:relation` used both by the server's mock
permission table and by the client cache (`` `${resource}:${relation}` ``). -/
def permKey (resource relation : String) : String :=
  resource ++ ":" ++ relation

/-- The hard-coded mock permission table of the deployed server's
check-access handler (`mockPermissions`). -/
def mockPermissions : List (String × Bool) :=
  [("document:project-plan:viewer", true),
   ("document:requirements:viewer", true),
   ("document:requirements:editor", true),
   ("document:architecture:viewer", true)]

/-- The table lookup `mockPermissions[key] || false` with default `false`.
(The key always contains a colon, so no inherited object property can be
hit; a plain association-list lookup is a faithful translation.) -/
def mockLookup (key : String) : Bool :=
  match mockPermissions.lookup key with
  | some b => b
  | none => false

/-- The fallback decision function: the mock branch of the check-access
handler decides from `mockPermissions[resource:relation] || false`; the
principal is not consulted at all. -/
def mockDecide (_principal relation resource : String) : Bool :=
  mockLookup (permKey resource relation)

/-- The check-access handler body (after authentication):
* no FGA client configured → answer from the mock table (fallback branch);
* FGA client configured → issue a remote check; a well-formed response is
  forwarded as the decision, any thrown error is caught and turned into the
  generic `500 Failed to check access` response. -/
def checkAccess (fgaConfigured : Bool) (remote : RemoteOutcome)
    (userSub resource relation : String) : Response × List Effect :=
  if !fgaConfigured then
    (.decision (mockLookup (permKey resource relation)) resource relation .fallback,
     [.fallbackLookup (permKey resource relation)])
  else
    match remote with
    | .ok a => (.decision a resource relation .remote,
                [.remoteCheck ("user:" ++ userSub) relation resource])
    | _ => (.error 500 "Failed to check access",
            [.remoteCheck ("user:" ++ userSub) relation resource])

/-- The grant-access handler body (after authentication):
check `owner` on the caller first; on `allowed = false` answer 403 before
any write is attempted; on `allowed = true` issue the write; any thrown
error (unconfigured client, failed check, failed write) is caught and turned
into the generic `500 Failed to grant access` response.  The mock table is
never consulted on this path. -/
def grantAccess (fgaConfigured : Bool) (canGrant : RemoteOutcome) (writeOk : Bool)
    (userSub resource relation targetUser : String) : Response × List Effect :=
  if !fgaConfigured then
    (.error 500 "Failed to grant access", [])
  else
    match canGrant with
    | .ok true =>
        let tr : List Effect :=
          [.remoteCheck ("user:" ++ userSub) "owner" resource,
           .remoteWrite ("user:" ++ targetUser) relation resource]
        if writeOk then
          (.grantOk ("Access granted: " ++ targetUser ++ " can now "
              ++ relation ++ " " ++ resource), tr)
        else
          (.error 500 "Failed to grant access", tr)
    | .ok false =>
        (.error 403 "Insufficient permissions to grant access",
         [.remoteCheck ("user:" ++ userSub) "owner" resource])
    | _ =>
        (.error 500 "Failed to grant access",
         [.remoteCheck ("user:" ++ userSub) "owner" resource])

/-- One approval request record, as built by the async-approval handler. -/
structure ApprovalRequest where
  id : String
  userId : String
  userName : String
  action : String
  resource : String
  justification : String
  status : ApprovalStatus
  createdAt : Nat
deriving DecidableEq, Repr

/-- A timer scheduled with `setTimeout`: after `delayMs` milliseconds it
calls `simulateApprovalDecision` on `requestId`. -/
structure Timer where
  requestId : String
  delayMs : Nat
deriving DecidableEq, Repr

/-- The async-approval handler body (after authentication): build the request
record with status `pending`, schedule the 5000 ms timer for it, and answer
immediately with the request id and status `pending`.  Nothing in the body
can fail, so the handler always reaches `res.json`. -/
def createApprovalRequest (newId userSub userName action resource justification : String)
    (now : Nat) : Response × ApprovalRequest × Timer :=
  (.approvalPending newId .pending
      "Approval request submitted. You will be notified when approved.",
   ⟨newId, userSub, userName, action, resource, justification, .pending, now⟩,
   ⟨newId, 5000⟩)

/-- The console line emitted by `simulateApprovalDecision`, the entire
observable effect of the timer firing. -/
def simulateApprovalDecisionLog (requestId : String) : String :=
  "Approval request " ++ requestId ++ " has been auto-approved for demo purposes"

/-- The status the demo timer announces when it fires: the log line declares
the request auto-approved.  No path in the code ever produces `expired`. -/
def timerFiredStatus : ApprovalStatus := .approved

/-- The `requireAuth` middleware: an unauthenticated request is answered with
`401 Authentication required` and the guarded handler never runs (so none of
its external calls are issued). -/
def requireAuth (isAuthenticated : Bool) (handler : Unit → Response × List Effect) :
    Response × List Effect :=
  if isAuthenticated then handler () else (.error 401 "Authentication required", [])

/-- The profile endpoint: `requireAuth`, then `management.getUser` (outcome
passed in as `mgmtOk`), a thrown error being caught as a 500. -/
def profileEndpoint (isAuthenticated : Bool) (userSub : String) (mgmtOk : Bool) :
    Response × List Effect :=
  requireAuth isAuthenticated (fun _ =>
    if mgmtOk then (.profileOk userSub, [.managementGetUser userSub])
    else (.error 500 "Failed to fetch user profile", [.managementGetUser userSub]))

/-- A token-vault endpoint: `requireAuth`, then `simulateTokenVaultExchange`,
which always returns a `tvault_<service>_<token>` bearer token with
`expires_in = 3600`. -/
def tokenEndpoint (isAuthenticated : Bool) (userSub service tok : String) :
    Response × List Effect :=
  requireAuth isAuthenticated (fun _ =>
    (.tokenOk ("tvault_" ++ service ++ "_" ++ tok) 3600,
     [.tokenVaultExchange userSub service]))

/-- The check-access endpoint: `requireAuth` then the handler body. -/
def checkAccessEndpoint (isAuthenticated fgaConfigured : Bool) (remote : RemoteOutcome)
    (userSub resource relation : String) : Response × List Effect :=
  requireAuth isAuthenticated (fun _ =>
    checkAccess fgaConfigured remote userSub resource relation)

/-- The grant-access endpoint: `requireAuth` then the handler body. -/
def grantAccessEndpoint (isAuthenticated fgaConfigured : Bool) (canGrant : RemoteOutcome)
    (writeOk : Bool) (userSub resource relation targetUser : String) :
    Response × List Effect :=
  requireAuth isAuthenticated (fun _ =>
    grantAccess fgaConfigured canGrant writeOk userSub resource relation targetUser)

/-- The async-approval endpoint: an unauthenticated request is answered with
401 and no approval request is created and no timer started. -/
def asyncApprovalEndpoint (isAuthenticated : Bool)
    (newId userSub userName action resource justification : String) (now : Nat) :
    Response × Option (ApprovalRequest × Timer) :=
  if isAuthenticated then
    let r := createApprovalRequest newId userSub userName action resource justification now
    (r.1, some (r.2.1, r.2.2))
  else
    (.error 401 "Authentication required", none)

/-- A JS `Map` as it is observed through `get`/`has`: a keyed partial map.
`mapUpdate` is `Map.set`. -/
def mapUpdate {α : Type} (m : String → Option α) (k : String) (v : α) :
    String → Option α :=
  fun k' => if k' = k then some v else m k'

/-- The client's `appState.fgaPermissions` as created: `new Map()`. -/
def emptyPerms : String → Option Bool := fun _ => none

/-- The resources scanned by the client's `loadUserPermissions`. -/
def permissionResources : List String :=
  ["document:project-plan", "document:requirements", "document:architecture",
   "project:alpha-release", "calendar:team-calendar"]

/-- The relations scanned by the client's `loadUserPermissions`. -/
def permissionRelations : List String :=
  ["viewer", "editor", "owner"]

/-- All (resource, relation) pairs `loadUserPermissions` queries, in order. -/
def scannedPairs : List (String × String) :=
  permissionResources.flatMap (fun r => permissionRelations.map (fun rel => (r, rel)))

/-- The client's `loadUserPermissions`: for each scanned (resource, relation)
pair ask the check-access endpoint; the server's answer is passed in as
`response` (`none` = non-OK HTTP response, `some a` = OK with `allowed = a`);
an entry `key ↦ true` is put into `appState.fgaPermissions` only when the
answer was OK with `allowed = true`. -/
def loadUserPermissions (response : String → String → Option Bool)
    (st : String → Option Bool) : String → Option Bool :=
  permissionResources.foldl (fun acc resource =>
    permissionRelations.foldl (fun acc2 relation =>
      match response resource relation with
      | some true => mapUpdate acc2 (permKey resource relation) true
      | _ => acc2) acc) st

/-- The same load expressed as one fold over an explicit pair list; used to
reason about `loadUserPermissions` uniformly. -/
def loadPairs (response : String → String → Option Bool)
    (ps : List (String × String)) (st : String → Option Bool) :
    String → Option Bool :=
  ps.foldl (fun acc p =>
    match response p.1 p.2 with
    | some true => mapUpdate acc (permKey p.1 p.2) true
    | _ => acc) st

/-- The client's `hasPermission`: `has(key) && get(key)` on the cache map. -/
def hasPermission (st : String → Option Bool) (resource relation : String) : Bool :=
  match st (permKey resource relation) with
  | some v => v
  | none => false

/-- The grant-access endpoint threaded with the only permission-cache state
in the system, the client-side `appState.fgaPermissions`: the handler touches
no cache, so the state passes through unchanged. -/
def grantAccessWithCache (st : String → Option Bool)
    (isAuthenticated fgaConfigured : Bool) (canGrant : RemoteOutcome) (writeOk : Bool)
    (userSub resource relation targetUser : String) :
    (Response × List Effect) × (String → Option Bool) :=
  (grantAccessEndpoint isAuthenticated fgaConfigured canGrant writeOk
      userSub resource relation targetUser, st)

/-- Runs `n` successive check-access calls with the same arguments against a
fixed remote outcome: the server keeps no state between calls, so each call
is the same computation. -/
def repeatedChecks (n : Nat) (fgaConfigured : Bool) (remote : RemoteOutcome)
    (userSub resource relation : String) : List (Response × List Effect) :=
  List.replicate n (checkAccess fgaConfigured remote userSub resource relation)

/-- A stored approval request in the (spec-modelled) workflow store. -/
structure StoredRequest where
  status : ApprovalStatus
  resolvedBy : Option String
deriving DecidableEq, Repr

/-- The outcome argument of `resolve`, restricted to approved/denied. -/
inductive ResolveOutcome
  | approved
  | denied
deriving DecidableEq, Repr

/-- The status a resolution outcome records. -/
def ResolveOutcome.toStatus : ResolveOutcome → ApprovalStatus
  | .approved => .approved
  | .denied => .denied

/-- Errors of the (spec-modelled) `resolve` operation. -/
inductive ResolveError
  | notFound
  | alreadyResolved
deriving DecidableEq, Repr

/-- Modelled from the spec: the Approval Workflow Manager's
`resolve(requestId, outcome ∈ {approved, denied}, resolvedBy)` operation,
which is missing from the source (the server only creates requests and never
stores or resolves them).  Per the spec it fails with `NotFound` for an
unknown id, fails with `AlreadyResolved` when the stored status is not
`pending`, and otherwise records the outcome and the resolver. -/
def resolveRequest (store : String → Option StoredRequest) (requestId : String)
    (outcome : ResolveOutcome) (resolvedBy : String) :
    Except ResolveError (String → Option StoredRequest) :=
  match store requestId with
  | none => .error .notFound
  | some r =>
      if r.status = .pending then
        .ok (mapUpdate store requestId ⟨outcome.toStatus, some resolvedBy⟩)
      else
        .error .alreadyResolved

/-- A one-request approval store holding a pending request, used to witness
the resolve contract on concrete data. -/
def demoApprovalStore : String → Option StoredRequest :=
  fun k => if k = "req_demo1" then some ⟨.pending, none⟩ else none

/-- A client permission cache holding one entry for the project-plan
document, as `loadUserPermissions` would leave it after a positive check. -/
def demoCache : String → Option Bool :=
  fun k => if k = "document:project-plan:viewer" then some true else none

end AIPM

/-- C1: the fallback decision function denies every (principal, relation,
resource) triple whose `resource:relation` key is not enumerated in the mock
permission table (fail-closed default deny). -/
theorem fallback_default_deny (principal relation resource : String)
    (h : AIPM.mockPermissions.lookup (AIPM.permKey resource relation) = none) :
    AIPM.mockDecide principal relation resource = false := by
  unfold AIPM.mockDecide AIPM.mockLookup
  rw [h]

/-- Witness for C1 at a concrete non-enumerated triple. -/
theorem fallback_default_deny_witness :
    AIPM.mockDecide "auth0|alice" "owner" "document:project-plan" = false :=
  fallback_default_deny "auth0|alice" "owner" "document:project-plan" (by decide)

/-- Helper: no branch of the check-access handler produces a cache-sourced
decision — the handler consults either the remote service or the mock
table, never a cache. -/
theorem checkAccess_not_cache (cfg : Bool) (remote : AIPM.RemoteOutcome)
    (u r rel : String) :
    ((AIPM.checkAccess cfg remote u r rel).1).isCacheDecision = false := by
  cases cfg <;> cases remote <;> rfl

/-- Helper: a resolution outcome never records status `pending`. -/
theorem toStatus_not_pending (o : AIPM.ResolveOutcome) :
    decide (o.toStatus = AIPM.ApprovalStatus.pending) = false := by
  cases o <;> rfl

/-- Helper: pointwise description of `loadPairs` — the loaded cache maps a
key to `some true` exactly when some queried pair with that key got an OK
allowed answer, and is untouched otherwise. -/
theorem loadPairs_apply (response : String → String → Option Bool)
    (ps : List (String × String)) (st : String → Option Bool) (k : String) :
    AIPM.loadPairs response ps st k =
      if ps.any (fun p => decide (AIPM.permKey p.1 p.2 = k
          ∧ response p.1 p.2 = some true))
      then some true else st k := by
  induction ps generalizing st with
  | nil => simp [AIPM.loadPairs]
  | cons p rest ih =>
      have h1 : AIPM.loadPairs response (p :: rest) st
          = AIPM.loadPairs response rest
              (match response p.1 p.2 with
               | some true => AIPM.mapUpdate st (AIPM.permKey p.1 p.2) true
               | _ => st) := rfl
      rw [h1, ih, List.any_cons]
      rcases hr : response p.1 p.2 with _ | b
      · have hd : decide (AIPM.permKey p.1 p.2 = k
            ∧ (none : Option Bool) = some true) = false :=
          decide_eq_false (fun h => Option.noConfusion h.2)
        rw [hd, Bool.false_or]
      · cases b
        · have hd : decide (AIPM.permKey p.1 p.2 = k
              ∧ (some false : Option Bool) = some true) = false :=
            decide_eq_false (fun h => Bool.noConfusion (Option.some.inj h.2))
          rw [hd, Bool.false_or]
        · simp only [AIPM.mapUpdate]
          by_cases ha : (rest.any fun q => decide (AIPM.permKey q.1 q.2 = k
              ∧ response q.1 q.2 = some true)) = true
          · have hcond : (decide (AIPM.permKey p.1 p.2 = k ∧ True)
                || (rest.any fun q => decide (AIPM.permKey q.1 q.2 = k
                    ∧ response q.1 q.2 = some true))) = true := by
              rw [ha, Bool.or_true]
            rw [if_pos ha, if_pos hcond]
          · by_cases hk : k = AIPM.permKey p.1 p.2
            · have hd : decide (AIPM.permKey p.1 p.2 = k ∧ True) = true :=
                decide_eq_true ⟨hk.symm, trivial⟩
              rw [hd, Bool.true_or, if_neg ha, if_pos hk, if_pos rfl]
            · have hk' : ¬ (AIPM.permKey p.1 p.2 = k) := fun h => hk h.symm
              have hd : decide (AIPM.permKey p.1 p.2 = k ∧ True) = false :=
                decide_eq_false (fun h => hk' h.1)
              rw [hd, Bool.false_or, if_neg ha, if_neg hk, if_neg ha]

/-- C2 (corrected), counterexample: with the FGA client configured, a
transport failure on the remote check is answered with the generic 500
error, not with a fallback-sourced decision — no decision is returned at
all. -/
theorem check_unavailable_counterexample :
    (AIPM.checkAccess true .unavailable "auth0|alice" "document:project-plan" "viewer").1
      = .error 500 "Failed to check access"
    ∧ ((AIPM.checkAccess true .unavailable "auth0|alice" "document:project-plan"
        "viewer").1).isFallbackDecision = false
    ∧ ((AIPM.checkAccess true .unavailable "auth0|alice" "document:project-plan"
        "viewer").1).isDecision = false :=
  ⟨rfl, rfl, rfl⟩

/-- C2 (amended): when the FGA client is not configured (the code's simulated
unavailability), check answers with a fallback-table decision and never an
error; when the client is configured and the remote check fails (transport
failure or service error), the handler catches the error and answers with
the generic `500 Failed to check access` — the raw transport error is never
propagated, but no fallback decision is produced. -/
theorem check_fallback_only_when_unconfigured (remote : AIPM.RemoteOutcome)
    (userSub resource relation : String)
    (h : remote = .unavailable ∨ remote = .remoteError) :
    ((AIPM.checkAccess false remote userSub resource relation).1).isFallbackDecision = true
    ∧ (AIPM.checkAccess true remote userSub resource relation).1
        = .error 500 "Failed to check access" := by
  refine ⟨rfl, ?_⟩
  rcases h with h | h <;> subst h <;> rfl

/-- Witness for C2 (amended) at a concrete transport failure. -/
theorem check_fallback_only_when_unconfigured_witness :
    ((AIPM.checkAccess false .unavailable "auth0|alice" "document:x" "viewer").1).isFallbackDecision = true
    ∧ (AIPM.checkAccess true .unavailable "auth0|alice" "document:x" "viewer").1
        = .error 500 "Failed to check access" :=
  check_fallback_only_when_unconfigured .unavailable "auth0|alice" "document:x" "viewer"
    (Or.inl rfl)

/-- C3 (corrected), counterexample: a successful grant on
`document:project-plan` leaves the client permission cache untouched — the
entry referencing that resource is still present afterwards and
`hasPermission` still serves it, so cache entries for the written resource
are not invalidated. -/
theorem grant_keeps_cache_counterexample :
    ((AIPM.grantAccessWithCache AIPM.demoCache true true (.ok true) true
        "auth0|owner" "document:project-plan" "editor" "auth0|bob").1).1
      = .grantOk "Access granted: auth0|bob can now editor document:project-plan"
    ∧ (AIPM.grantAccessWithCache AIPM.demoCache true true (.ok true) true
        "auth0|owner" "document:project-plan" "editor" "auth0|bob").2
        "document:project-plan:viewer" = some true
    ∧ AIPM.hasPermission
        ((AIPM.grantAccessWithCache AIPM.demoCache true true (.ok true) true
          "auth0|owner" "document:project-plan" "editor" "auth0|bob").2)
        "document:project-plan" "viewer" = true := by
  refine ⟨rfl, by decide, by decide⟩

/-- C3 (amended): a grant performs no cache invalidation at all — the only
permission cache in the system (the client-side map) passes through the
grant endpoint unchanged; the server-side check handler, however, never
serves a decision from a cache (it has none), so a post-write check is never
cache-sourced. -/
theorem grant_no_invalidation_check_never_cache (st : String → Option Bool)
    (isAuth fgaConfigured : Bool) (canGrant : AIPM.RemoteOutcome) (writeOk : Bool)
    (userSub resource relation targetUser : String)
    (cfg2 : Bool) (remote2 : AIPM.RemoteOutcome) (u2 r2 rel2 : String) :
    (AIPM.grantAccessWithCache st isAuth fgaConfigured canGrant writeOk
        userSub resource relation targetUser).2 = st
    ∧ ((AIPM.checkAccess cfg2 remote2 u2 r2 rel2).1).isCacheDecision = false :=
  ⟨rfl, checkAccess_not_cache cfg2 remote2 u2 r2 rel2⟩

/-- C5 (code bug): when the timer scheduled by the async-approval handler
fires, `simulateApprovalDecision` announces the request auto-approved — the
timeout path produces a synthetic approval, never `expired`, contradicting
the specified timeout behaviour. -/
theorem timer_auto_approves_never_expires :
    AIPM.simulateApprovalDecisionLog "req_abc123456"
      = "Approval request req_abc123456 has been auto-approved for demo purposes"
    ∧ AIPM.timerFiredStatus = .approved
    ∧ decide (AIPM.timerFiredStatus = AIPM.ApprovalStatus.expired) = false
    ∧ (AIPM.createApprovalRequest "req_abc123456" "auth0|u1" "User One"
        "access_document" "document:sensitive" "needed for review" 0).2.2.delayMs
        = 5000 :=
  ⟨rfl, rfl, rfl, rfl⟩

/-- C6: a grant request whose caller is not `owner` of the resource is
answered `403 Insufficient permissions to grant access` and no relationship
tuple is written; moreover no branch of the grant handler ever consults the
fallback table. -/
theorem grant_denied_no_write_no_fallback (writeOk : Bool)
    (userSub resource relation targetUser : String) :
    (AIPM.grantAccess true (.ok false) writeOk userSub resource relation targetUser).1
      = .error 403 "Insufficient permissions to grant access"
    ∧ ((AIPM.grantAccess true (.ok false) writeOk userSub resource relation
        targetUser).2.all (fun e => ! e.isRemoteWrite)) = true
    ∧ ∀ (cfg : Bool) (cg : AIPM.RemoteOutcome) (wOk : Bool) (u r rel t : String),
        ((AIPM.grantAccess cfg cg wOk u r rel t).2.all
          (fun e => ! e.isFallbackLookup)) = true := by
  refine ⟨rfl, rfl, ?_⟩
  intro cfg cg wOk u r rel t
  cases cfg with
  | false => rfl
  | true =>
      cases cg with
      | ok a => cases a <;> cases wOk <;> rfl
      | unavailable => rfl
      | remoteError => rfl

/-- C7: the async-approval handler always succeeds (nothing in its body can
fail), answers immediately with the new request id and status `pending`,
creates the request in status `pending`, and schedules the 5000 ms timer for
that request. -/
theorem create_request_pending_with_timer
    (newId userSub userName action resource justification : String) (now : Nat) :
    (AIPM.createApprovalRequest newId userSub userName action resource justification
        now).1
      = .approvalPending newId .pending
          "Approval request submitted. You will be notified when approved."
    ∧ (AIPM.createApprovalRequest newId userSub userName action resource justification
        now).2.1.status = .pending
    ∧ (AIPM.createApprovalRequest newId userSub userName action resource justification
        now).2.1.id = newId
    ∧ (AIPM.createApprovalRequest newId userSub userName action resource justification
        now).2.2 = ⟨newId, 5000⟩ :=
  ⟨rfl, rfl, rfl, rfl⟩

/-- C8 (corrected), counterexample: two successive identical checks both go
to the remote service — the second call issues a fresh remote check and its
decision is remote-sourced, not cache-sourced, so calls after the first are
not served from a cache. -/
theorem repeated_checks_counterexample :
    AIPM.repeatedChecks 2 true (.ok true) "auth0|alice" "document:project-plan" "viewer"
      = [(.decision true "document:project-plan" "viewer" .remote,
          [.remoteCheck "user:auth0|alice" "viewer" "document:project-plan"]),
         (.decision true "document:project-plan" "viewer" .remote,
          [.remoteCheck "user:auth0|alice" "viewer" "document:project-plan"])]
    ∧ (AIPM.repeatedChecks 2 true (.ok true) "auth0|alice" "document:project-plan"
        "viewer").map (fun c => c.1.isCacheDecision) = [false, false] :=
  ⟨rfl, rfl⟩

/-- C8 (amended): the server keeps no check cache — repeated check calls
with the same arguments and a fixed remote outcome are all the very same
computation (hence identical `allowed` values), and no call, first or later,
is answered from a cache. -/
theorem repeated_checks_identical_never_cache (n : Nat) (cfg : Bool)
    (remote : AIPM.RemoteOutcome) (u r rel : String) :
    (AIPM.repeatedChecks n cfg remote u r rel).all
      (fun c => decide (c = AIPM.checkAccess cfg remote u r rel)
        && ! c.1.isCacheDecision) = true := by
  rw [List.all_eq_true]
  intro c hc
  rw [AIPM.repeatedChecks, List.mem_replicate] at hc
  rcases hc with ⟨-, rfl⟩
  simp [checkAccess_not_cache cfg remote u r rel]

/-- C9: the client permission cache stores only positive results — after
`loadUserPermissions` every key is either absent or mapped to `true`, and
`hasPermission` answers `true` exactly when some queried (resource,
relation) pair with that key got an allowed answer from the server. -/
theorem client_cache_positive_only (response : String → String → Option Bool)
    (resource relation : String) (k : String) :
    (AIPM.loadUserPermissions response AIPM.emptyPerms k = some true
      ∨ AIPM.loadUserPermissions response AIPM.emptyPerms k = none)
    ∧ (AIPM.hasPermission (AIPM.loadUserPermissions response AIPM.emptyPerms)
        resource relation = true
      ↔ AIPM.scannedPairs.any (fun p =>
          decide (AIPM.permKey p.1 p.2 = AIPM.permKey resource relation
            ∧ response p.1 p.2 = some true)) = true) := by
  have hload : ∀ k' : String,
      AIPM.loadUserPermissions response AIPM.emptyPerms k'
        = AIPM.loadPairs response AIPM.scannedPairs AIPM.emptyPerms k' :=
    fun _ => rfl
  constructor
  · by_cases ha : (AIPM.scannedPairs.any (fun p =>
        decide (AIPM.permKey p.1 p.2 = k ∧ response p.1 p.2 = some true))) = true
    · exact Or.inl (by rw [hload k, loadPairs_apply, if_pos ha])
    · refine Or.inr ?_
      rw [hload k, loadPairs_apply, if_neg ha]
      rfl
  · rw [AIPM.hasPermission, hload, loadPairs_apply]
    by_cases ha : (AIPM.scannedPairs.any (fun p =>
        decide (AIPM.permKey p.1 p.2 = AIPM.permKey resource relation
          ∧ response p.1 p.2 = some true))) = true
    · rw [if_pos ha]
      exact iff_of_true rfl ha
    · rw [if_neg ha]
      exact iff_of_false Bool.false_ne_true ha

/-- C4 (spec-modelled): resolution succeeds at most once — resolving a
pending request records the outcome and the resolver; a second resolve of
the same id fails with `AlreadyResolved` while the stored record still
carries only the first resolution; resolving an unknown id fails with
`NotFound`. -/
theorem resolve_at_most_once (store : String → Option AIPM.StoredRequest)
    (requestId : String) (r : AIPM.StoredRequest)
    (o1 o2 : AIPM.ResolveOutcome) (rb1 rb2 : String)
    (hfound : store requestId = some r)
    (hpending : r.status = .pending) :
    AIPM.resolveRequest store requestId o1 rb1
      = .ok (AIPM.mapUpdate store requestId ⟨o1.toStatus, some rb1⟩)
    ∧ AIPM.mapUpdate store requestId ⟨o1.toStatus, some rb1⟩ requestId
      = some ⟨o1.toStatus, some rb1⟩
    ∧ AIPM.resolveRequest (AIPM.mapUpdate store requestId ⟨o1.toStatus, some rb1⟩)
        requestId o2 rb2 = .error .alreadyResolved
    ∧ (∀ (store2 : String → Option AIPM.StoredRequest) (id2 : String)
        (o : AIPM.ResolveOutcome) (rb : String),
        store2 id2 = none → AIPM.resolveRequest store2 id2 o rb = .error .notFound) := by
  have hupd : AIPM.mapUpdate store requestId
      (⟨o1.toStatus, some rb1⟩ : AIPM.StoredRequest) requestId
      = some ⟨o1.toStatus, some rb1⟩ := by
    simp [AIPM.mapUpdate]
  refine ⟨?_, hupd, ?_, ?_⟩
  · rw [AIPM.resolveRequest, hfound]
    simp [hpending]
  · rw [AIPM.resolveRequest, hupd]
    have := toStatus_not_pending o1
    simp at this
    simp [this]
  · intro store2 id2 o rb h
    rw [AIPM.resolveRequest, h]

/-- Witness for C4 on a concrete one-request store. -/
theorem resolve_at_most_once_witness :
    AIPM.resolveRequest AIPM.demoApprovalStore "req_demo1" .approved "manager1"
      = .ok (AIPM.mapUpdate AIPM.demoApprovalStore "req_demo1"
          ⟨AIPM.ApprovalStatus.approved, some "manager1"⟩)
    ∧ AIPM.resolveRequest
        (AIPM.mapUpdate AIPM.demoApprovalStore "req_demo1"
          ⟨AIPM.ApprovalStatus.approved, some "manager1"⟩)
        "req_demo1" .denied "manager2" = .error .alreadyResolved := by
  have h := resolve_at_most_once AIPM.demoApprovalStore "req_demo1" ⟨.pending, none⟩
    .approved .denied "manager1" "manager2" (by simp [AIPM.demoApprovalStore]) rfl
  exact ⟨h.1, h.2.2.1⟩

/-- C10: every protected endpoint rejects an unauthenticated request with
`401 Authentication required` and performs nothing: no management, token,
remote-authorization or fallback call is issued and no approval request or
timer is created. -/
theorem unauthenticated_rejected (userSub service tok : String)
    (mgmtOk fgaConfigured : Bool) (remote canGrant : AIPM.RemoteOutcome)
    (writeOk : Bool) (resource relation targetUser : String)
    (newId userName action justification : String) (now : Nat) :
    AIPM.profileEndpoint false userSub mgmtOk
      = (.error 401 "Authentication required", [])
    ∧ AIPM.tokenEndpoint false userSub service tok
      = (.error 401 "Authentication required", [])
    ∧ AIPM.checkAccessEndpoint false fgaConfigured remote userSub resource relation
      = (.error 401 "Authentication required", [])
    ∧ AIPM.grantAccessEndpoint false fgaConfigured canGrant writeOk userSub resource
        relation targetUser
      = (.error 401 "Authentication required", [])
    ∧ AIPM.asyncApprovalEndpoint false newId userSub userName action resource
        justification now
      = (.error 401 "Authentication required", none) :=
  ⟨rfl, rfl, rfl, rfl, rfl⟩
